import Mathlib

/-!
Shallow embedding of the shipment filtering / pagination / CSV-export
pipeline of the paint-damage-prediction web client
(`src/frontend/src/pages/ShipmentsPage.tsx`, `src/frontend/src/utils/dateUtils.ts`),
together with theorems settling the specification claims about it.

Modelling conventions:
* JavaScript strings are `List Char`; `String.prototype.includes` is
  `List.isInfixOf`, `toLowerCase` is character-wise `Char.toLower`.
* A JavaScript `Date` value is `Option Int`: `some t` is the time value
  (milliseconds since the epoch), `none` is an Invalid Date (`NaN` time
  value).  JS `<`/`>` comparisons involving `NaN` are false, which `jsLt`
  and `jsGt` reproduce.  A record field of type `Date`-from-string holds
  the parse result of `new Date(isoString)` directly.
* JS numbers in the records are modelled as `Nat`/`Rat` (no floating
  point artefact is relevant to any claim); `Number(value)` results from
  form inputs are `Int`.
-/

namespace PaintDamage

/-- JavaScript strings, modelled as lists of characters. -/
abbrev Str := List Char

/-- JavaScript `String.prototype.toLowerCase`, character-wise. -/
def toLower (s : Str) : Str := s.map Char.toLower

/-- A JavaScript `Date` value: `some t` is a valid time value in
milliseconds since the epoch, `none` is an Invalid Date (NaN). -/
abbrev JSDate := Option Int

/-- JavaScript `<` on two `Date` values: false whenever either side is NaN. -/
def jsLt : JSDate → JSDate → Bool
  | some a, some b => a < b
  | _, _ => false

/-- JavaScript `>` on two `Date` values: false whenever either side is NaN. -/
def jsGt : JSDate → JSDate → Bool
  | some a, some b => a > b
  | _, _ => false

/-- Embedding of `isDateInRange` from `src/frontend/src/utils/dateUtils.ts`:

```
export function isDateInRange(date, start, end) {
  const checkDate = typeof date === "string" ? new Date(date) : date;
  if (start && checkDate < start) return false;
  if (end && checkDate > end) return false;
  return true;
}
```

`date` is the (already parsed) check date; `start`/`stop` are `Date | null`,
where a `Date` object is always truthy in JS, even an Invalid Date — hence
the outer `Option` models `null` and the inner `JSDate` the date value. -/
def isDateInRange (date : JSDate) (start stop : Option JSDate) : Bool :=
  if (match start with | some s => jsLt date s | none => false) then false
  else if (match stop with | some e => jsGt date e | none => false) then false
  else true

/-- A shipment record as fetched from the collaborator
(`ShipmentResponse` in `src/frontend/src/types/shipment.ts`).  The `date`
field holds the parse result of the record's ISO date string. -/
structure Shipment where
  mongoId : Str
  date : JSDate
  dealer_code : Nat
  warehouse : Str
  product_code : Str
  vehicle : Str
  shipped : Nat
  returned : Option Nat
  damage_rate : Option Rat
  loss_value : Option Rat
  created_at : Str
  updated_at : Str
deriving DecidableEq, Repr

/-- The component-local filter state of `ShipmentsPage`
(`searchQuery`, `startDate`, `endDate`, `warehouseFilter`, `vehicleFilter`).
`startDate = none` encodes the empty string (falsy); `some d` encodes a
non-empty date-input string whose `new Date(...)` parse is `d`. -/
structure FilterState where
  searchQuery : Str
  startDate : Option JSDate
  endDate : Option JSDate
  warehouseFilter : Str
  vehicleFilter : Str
deriving DecidableEq, Repr

/-- Decimal string form of a record number, as JS `Number.prototype.toString`
produces for integer values. -/
def natToStr (n : Nat) : Str := (toString n).data

/-- JavaScript `hay.includes(needle)`: `needle` occurs as a contiguous
substring of `hay` (always true for the empty needle). -/
def jsIncludes (hay needle : Str) : Bool :=
  match hay with
  | [] => needle.isEmpty
  | _ :: t => needle.isPrefixOf hay || jsIncludes t needle

/-- Search block of the `filteredShipments` predicate
(`ShipmentsPage.tsx` lines 74–83): when `searchQuery` is non-empty, the
lower-cased query must be a substring of the dealer-code string, the
lower-cased warehouse, the lower-cased vehicle, or the raw product code. -/
def searchOk (st : FilterState) (s : Shipment) : Bool :=
  if st.searchQuery ≠ [] then
    let query := toLower st.searchQuery
    jsIncludes (natToStr s.dealer_code) query ||
    jsIncludes (toLower s.warehouse) query ||
    jsIncludes (toLower s.vehicle) query ||
    jsIncludes s.product_code query
  else true

/-- Date-range block of the `filteredShipments` predicate
(`ShipmentsPage.tsx` lines 86–90): only evaluated when at least one bound
string is non-empty; each non-empty bound is parsed with `new Date`. -/
def dateOk (st : FilterState) (s : Shipment) : Bool :=
  if st.startDate.isSome || st.endDate.isSome then
    isDateInRange s.date st.startDate st.endDate
  else true

/-- Warehouse block of the `filteredShipments` predicate
(`ShipmentsPage.tsx` lines 93–95). -/
def warehouseOk (st : FilterState) (s : Shipment) : Bool :=
  if st.warehouseFilter ≠ "all".data ∧ s.warehouse ≠ st.warehouseFilter then false
  else true

/-- Vehicle block of the `filteredShipments` predicate
(`ShipmentsPage.tsx` lines 98–100). -/
def vehicleOk (st : FilterState) (s : Shipment) : Bool :=
  if st.vehicleFilter ≠ "all".data ∧ s.vehicle ≠ st.vehicleFilter then false
  else true

/-- The per-record predicate of `filteredShipments`: the four blocks in
source order, each early-`return false` being a conjunct. -/
def matchesFilter (st : FilterState) (s : Shipment) : Bool :=
  searchOk st s && dateOk st s && warehouseOk st s && vehicleOk st s

/-- Embedding of the `filteredShipments` memo (`ShipmentsPage.tsx`
lines 70–111): `shipments.filter(...)` over the fetched list.  (The
`if (!shipments) return []` guard handles the not-yet-loaded query state
and is outside this pure core.) -/
def filteredShipments (st : FilterState) (shipments : List Shipment) : List Shipment :=
  shipments.filter (matchesFilter st)

/-- The all-empty filter state created on view entry / by Clear All. -/
def emptyFilterState : FilterState :=
  { searchQuery := []
    startDate := none
    endDate := none
    warehouseFilter := "all".data
    vehicleFilter := "all".data }

/-- Page size constant `ITEMS_PER_PAGE` of `ShipmentsPage.tsx`. -/
def ITEMS_PER_PAGE : Nat := 10

/-- Embedding of the `paginatedShipments` memo (`ShipmentsPage.tsx`
lines 115–118), generalised over the page size:

```
const startIndex = (currentPage - 1) * ITEMS_PER_PAGE;
return filteredShipments.slice(startIndex, startIndex + ITEMS_PER_PAGE);
```

`Array.prototype.slice(a, a + P)` for `0 ≤ a` is drop-`a`-then-take-`P`,
clipped to the array bounds. -/
def paginate (records : List α) (pageIndex pageSize : Nat) : List α :=
  (records.drop ((pageIndex - 1) * pageSize)).take pageSize

/-- Embedding of `Math.ceil(filteredShipments.length / ITEMS_PER_PAGE)`
(`ShipmentsPage.tsx` line 114), generalised over the page size. -/
def totalPages (n pageSize : Nat) : Nat := (n + pageSize - 1) / pageSize

/-- Next-page navigation (`ShipmentsPage.tsx` line 885):
`setCurrentPage((p) => Math.min(totalPages, p + 1))`. -/
def nextPage (tp p : Nat) : Nat := min tp (p + 1)

/-- Previous-page navigation (`ShipmentsPage.tsx` line 868):
`setCurrentPage((p) => Math.max(1, p - 1))`. -/
def prevPage (p : Nat) : Nat := max 1 (p - 1)

/-- The create-form payload (`ShipmentCreate` in
`src/frontend/src/types/shipment.ts`).  `dealer_code` and `shipped` come
from `Number(value)` on form inputs and may hold any integer. -/
structure ShipmentCreate where
  date : Str
  dealer_code : Int
  warehouse : Str
  product_code : Str
  vehicle : Str
  shipped : Int
  returned : Option Int := none
deriving DecidableEq, Repr

/-- Outcome of the submit handler: either a locally rejected form (with
the user-visible toast message, no network request) or the payload handed
to `createMutation.mutate`. -/
inductive SubmitResult where
  | rejected (message : Str)
  | submitted (payload : ShipmentCreate)
deriving DecidableEq, Repr

/-- JavaScript `/^[0-9]+$/.test(s)` (the source's `/^\d+$/`): non-empty
and all characters decimal digits. -/
def digitsTest (s : Str) : Bool := !s.isEmpty && s.all Char.isDigit

/-- Embedding of `handleSubmit` (`ShipmentsPage.tsx` lines 172–181):

```
if (form.product_code.length !== 9 || !/^\d+$/.test(form.product_code)) {
  toast.error("Product code must be exactly 9 digits");
  return;
}
createMutation.mutate(form);
```

This is the entire client-side validation: no other field is checked. -/
def handleSubmit (form : ShipmentCreate) : SubmitResult :=
  if form.product_code.length ≠ 9 || !digitsTest form.product_code then
    .rejected "Product code must be exactly 9 digits".data
  else
    .submitted form

/-- One CSV cell value as placed in the `exportData` objects: either a JS
string or a JS number.  A blank cell is `.str []` (the empty string). -/
inductive Cell where
  | str (s : Str)
  | num (v : Rat)
deriving DecidableEq, Repr

/-- JavaScript `Number.prototype.toFixed(2)` on a (finite) number `x`,
per the ECMAScript algorithm on the exact value: the integer `n` with
`n / 100` closest to `|x|` (ties toward the larger `n`), rendered with two
digits after the point, sign restored. -/
def toFixed2 (x : Rat) : Str :=
  let m : Int := Rat.floor (|x| * 100 + 1 / 2)
  let q := m / 100
  let r := m % 100
  (if x < 0 then ['-'] else []) ++
    (toString q).data ++ ['.'] ++ (if r < 10 then ['0'] else []) ++ (toString r).data

/-- Projection of one shipment record to its export row
(`ShipmentsPage.tsx` lines 131–143), in the fixed column order
Date, Dealer, Warehouse, Product Code, Vehicle, Shipped, Returned,
Damage Rate, Loss Value.  `fmtDate` abstracts
`format(new Date(s.date), "yyyy-MM-dd HH:mm")` (date-fns calendar
rendering of the instant).  `Returned` and `Loss Value` use `??` (blank
only when absent); `Damage Rate` uses JS truthiness (`s.damage_rate ?`),
so a present rate of 0 also renders blank. -/
def exportRow (fmtDate : JSDate → Str) (s : Shipment) : List Cell :=
  [ .str (fmtDate s.date),
    .num s.dealer_code,
    .str s.warehouse,
    .str s.product_code,
    .str s.vehicle,
    .num s.shipped,
    (match s.returned with | some n => .num n | none => .str []),
    .str (match s.damage_rate with
          | some r => if r ≠ 0 then toFixed2 (r * 100) ++ ['%'] else []
          | none => []),
    (match s.loss_value with | some v => .num v | none => .str []) ]

/-- Outcome of the export handler: either the empty-data toast with no
file, or the rows handed to `exportToCSV`. -/
inductive ExportResult where
  | nothingToExport
  | fileProduced (rows : List (List Cell))
deriving DecidableEq, Repr

/-- Embedding of `handleExportCSV` (`ShipmentsPage.tsx` lines 125–150):

```
if (!filteredShipments.length) { toast.error("No data to export"); return; }
const exportData = filteredShipments.map((s) => ({ ... }));
exportToCSV(exportData, `shipments_...csv`);
```

`.nothingToExport` is the early return (toast `"No data to export"`, no
file); `.fileProduced rows` is the call to `exportToCSV`. -/
def handleExportCSV (fmtDate : JSDate → Str) (records : List Shipment) : ExportResult :=
  if records.length = 0 then .nothingToExport
  else .fileProduced (records.map (exportRow fmtDate))

/-- A trivial date formatter, used to instantiate the abstract
`format(new Date(...), "yyyy-MM-dd HH:mm")` argument in concrete
evaluations. -/
def fmtDummy : JSDate → Str := fun _ => []

/-- A concrete well-formed shipment record for concrete evaluations. -/
def sampleShipment : Shipment :=
  { mongoId := ['a']
    date := some 1000
    dealer_code := 5
    warehouse := "NAG".data
    product_code := "123456789".data
    vehicle := "Minitruck".data
    shipped := 10
    returned := some 1
    damage_rate := some (1 / 10)
    loss_value := some 250
    created_at := []
    updated_at := [] }

/-- A record whose damage rate is present and equal to zero. -/
def zeroRateShipment : Shipment := { sampleShipment with damage_rate := some 0 }

/-- A record whose date string failed to parse (`new Date` gave NaN). -/
def invalidDateShipment : Shipment := { sampleShipment with date := none }

/-- The spec's concrete scenario `{productCode:"123456789", dealerCode:0, shipped:1}`. -/
def dealerZeroForm : ShipmentCreate :=
  { date := []
    dealer_code := 0
    warehouse := "NAG".data
    product_code := "123456789".data
    vehicle := "Minitruck".data
    shipped := 1 }

/-- A form with a valid product code but zero shipped quantity. -/
def shippedZeroForm : ShipmentCreate := { dealerZeroForm with dealer_code := 1, shipped := 0 }

/-- A form with a valid product code, negative dealer code and zero shipped. -/
def negDealerForm : ShipmentCreate :=
  { date := []
    dealer_code := -5
    warehouse := "MUM".data
    product_code := "987654321".data
    vehicle := "Vikram".data
    shipped := 0 }

/-- The spec's concrete scenario with the 5-digit product code `"12345"`. -/
def shortCodeForm : ShipmentCreate :=
  { dealerZeroForm with dealer_code := 5, product_code := "12345".data }

/-- A form whose product code is 9 characters but contains a non-digit. -/
def letterCodeForm : ShipmentCreate :=
  { dealerZeroForm with dealer_code := 5, product_code := "12345678X".data }

/-- A form with a valid 9-digit product code. -/
def goodForm : ShipmentCreate :=
  { dealerZeroForm with dealer_code := 5, product_code := "123456788".data }

/-! ### Pagination lemmas -/

theorem totalPages_nil (P : Nat) (hP : 0 < P) : totalPages 0 P = 0 := by
  unfold totalPages
  exact Nat.div_eq_of_lt (by omega)

theorem totalPages_step (P n : Nat) (hP : 0 < P) (hn : 0 < n) :
    totalPages n P = totalPages (n - P) P + 1 := by
  unfold totalPages
  by_cases h : P ≤ n
  · have e : n + P - 1 = (n - P + P - 1) + P := by omega
    rw [e, Nat.add_div_right _ hP]
  · have e : n - P = 0 := by omega
    rw [e]
    have e0 : (0 + P - 1) / P = 0 := Nat.div_eq_of_lt (by omega)
    have e1 : (n + P - 1) / P = 1 :=
      Nat.div_eq_of_lt_le (by omega) (by omega)
    rw [e0, e1]

theorem totalPages_pos (P n : Nat) (hP : 0 < P) (hn : 0 < n) : 0 < totalPages n P := by
  rw [totalPages_step P n hP hn]
  omega

theorem totalPages_mul_ge (P n : Nat) (hP : 0 < P) : n ≤ totalPages n P * P := by
  have key : totalPages n P * P + (n + P - 1) % P = n + P - 1 := by
    unfold totalPages
    rw [Nat.mul_comm]
    exact Nat.div_add_mod _ _
  have h2 : (n + P - 1) % P < P := Nat.mod_lt _ hP
  omega

theorem totalPages_pred_mul_lt (P n : Nat) (hP : 0 < P) (hn : 0 < n) :
    (totalPages n P - 1) * P < n := by
  have h1 : totalPages n P * P ≤ n + P - 1 := Nat.div_mul_le_self _ _
  have h2 : 0 < totalPages n P := totalPages_pos P n hP hn
  have h3 : (totalPages n P - 1) * P + P = totalPages n P * P := by
    have e : totalPages n P - 1 + 1 = totalPages n P := Nat.succ_pred_eq_of_pos h2
    calc (totalPages n P - 1) * P + P = (totalPages n P - 1 + 1) * P := by ring
      _ = totalPages n P * P := by rw [e]
  omega

theorem paginate_one (P : Nat) (F : List α) : paginate F 1 P = F.take P := by
  simp [paginate]

theorem paginate_shift (P i : Nat) (F : List α) :
    paginate F (i + 2) P = paginate (F.drop P) (i + 1) P := by
  simp [paginate, List.drop_drop]
  ring_nf

theorem pages_join_aux (P : Nat) (hP : 0 < P) :
    ∀ (k : Nat) (F : List α), F.length ≤ k →
      ((List.range (totalPages F.length P)).map (fun i => paginate F (i + 1) P)).flatten = F := by
  intro k
  induction k with
  | zero =>
    intro F hF
    have hF0 : F = [] := List.eq_nil_of_length_eq_zero (by omega)
    subst hF0
    simp [totalPages_nil P hP]
  | succ k ih =>
    intro F hF
    by_cases h0 : F = []
    · subst h0
      simp [totalPages_nil P hP]
    · have hlen : 0 < F.length := List.length_pos.mpr h0
      rw [totalPages_step P F.length hP hlen, List.range_succ_eq_map, List.map_cons,
        List.flatten_cons, List.map_map]
      have hmap : (List.range (totalPages (F.length - P) P)).map
            ((fun i => paginate F (i + 1) P) ∘ Nat.succ)
          = (List.range (totalPages (F.length - P) P)).map
            (fun i => paginate (F.drop P) (i + 1) P) := by
        apply List.map_congr_left
        intro i _
        show paginate F (i + 1 + 1) P = paginate (F.drop P) (i + 1) P
        exact paginate_shift P i F
      have ihd := ih (F.drop P) (by simp [List.length_drop]; omega)
      rw [List.length_drop] at ihd
      rw [hmap, ihd]
      show paginate F (0 + 1) P ++ F.drop P = F
      rw [paginate_one]
      exact List.take_append_drop P F

theorem paginate_len_le (F : List α) (P p : Nat) : (paginate F p P).length ≤ P := by
  simp [paginate, List.length_take]

theorem paginate_getElem (F : List α) (P p i : Nat) (hi : i < P) :
    (paginate F p P)[i]? = F[(p - 1) * P + i]? := by
  simp [paginate, List.getElem?_take, hi, List.getElem?_drop]

theorem paginate_last_ne_nil (F : List α) (P : Nat) (hP : 0 < P) (hF : F ≠ []) :
    paginate F (totalPages F.length P) P ≠ [] := by
  have hn : 0 < F.length := List.length_pos.mpr hF
  have h1 := totalPages_pred_mul_lt P F.length hP hn
  rw [← List.length_pos]
  simp [paginate, List.length_take, List.length_drop]
  omega

theorem paginate_overflow_nil (F : List α) (P p : Nat) (hP : 0 < P)
    (hp : totalPages F.length P < p) : paginate F p P = [] := by
  have h1 : F.length ≤ (p - 1) * P := by
    have h2 := totalPages_mul_ge P F.length hP
    have h3 : totalPages F.length P ≤ p - 1 := by omega
    calc F.length ≤ totalPages F.length P * P := h2
      _ ≤ (p - 1) * P := Nat.mul_le_mul_right P h3
  simp [paginate, List.drop_eq_nil_of_le h1]

/-! ### Claim theorems -/

/-- Claim C2: for every filtered collection `F` and page size `P > 0`, the
1-based page `p` holds exactly the records at zero-based offsets
`(p-1)*P .. p*P-1` clipped to the bounds of `F` (index facts below),
concatenating pages `1 .. totalPages` (with `totalPages = ceil |F| / P`)
reconstructs `F` exactly, every page is at most `P` long, and the last
page is non-empty unless `F` itself is empty. -/
theorem paginate_spec (F : List α) (P : Nat) (hP : 0 < P) :
    ((List.range (totalPages F.length P)).map (fun i => paginate F (i + 1) P)).flatten = F ∧
    (∀ p, (paginate F p P).length ≤ P) ∧
    (∀ p i, i < P → (paginate F p P)[i]? = F[(p - 1) * P + i]?) ∧
    (F ≠ [] → paginate F (totalPages F.length P) P ≠ []) :=
  ⟨pages_join_aux P hP F.length F le_rfl,
   fun p => paginate_len_le F P p,
   fun p i hi => paginate_getElem F P p i hi,
   fun hF => paginate_last_ne_nil F P hP hF⟩

/-- Witness for C2 at the concrete collection `[10, 20, 30]` with page
size 2: pages `[10,20]` and `[30]` concatenate back to the collection and
the last page is non-empty. -/
theorem paginate_spec_witness :
    ((List.range (totalPages 3 2)).map
        (fun i => paginate ([10, 20, 30] : List Nat) (i + 1) 2)).flatten = [10, 20, 30] ∧
    paginate ([10, 20, 30] : List Nat) (totalPages 3 2) 2 ≠ [] :=
  ⟨(paginate_spec [10, 20, 30] 2 (by decide)).1,
   (paginate_spec [10, 20, 30] 2 (by decide)).2.2.2 (by decide)⟩

/-- Claim C3 is false as stated: with the non-empty collection `[0]` and
page size 10, `totalPages = 1`, and page index 2 (strictly greater than
`totalPages`) yields the empty slice, not the last valid page's content
`[0]`. -/
theorem paginate_overflow_counterexample :
    totalPages ([0] : List Nat).length 10 = 1 ∧
    totalPages ([0] : List Nat).length 10 < 2 ∧
    paginate ([0] : List Nat) 2 10 = [] ∧
    paginate ([0] : List Nat) (totalPages ([0] : List Nat).length 10) 10 = [0] := by
  decide

/-- Claim C3 (amended): for every non-empty `F`, page size `P > 0` and page
index `p > totalPages`, the paginate operation returns the empty slice —
never an error — while the navigation clamp (`Math.min(totalPages, ·)` in
`setCurrentPage`) maps such an index back to `totalPages`, where paginate
returns the last valid page's (non-empty) content. -/
theorem paginate_overflow_spec (F : List α) (P p : Nat) (hP : 0 < P) (hF : F ≠ [])
    (hp : totalPages F.length P < p) :
    paginate F p P = [] ∧
    nextPage (totalPages F.length P) p = totalPages F.length P ∧
    paginate F (totalPages F.length P) P ≠ [] := by
  refine ⟨paginate_overflow_nil F P p hP hp, ?_, paginate_last_ne_nil F P hP hF⟩
  simp [nextPage]
  omega

/-- Witness for the amended C3 at `F = [7]`, `P = 10`, `p = 2`. -/
theorem paginate_overflow_spec_witness :
    paginate ([7] : List Nat) 2 10 = [] ∧
    nextPage (totalPages ([7] : List Nat).length 10) 2 = totalPages ([7] : List Nat).length 10 ∧
    paginate ([7] : List Nat) (totalPages ([7] : List Nat).length 10) 10 ≠ [] :=
  paginate_overflow_spec [7] 10 2 (by decide) (by decide) (by decide)

/-- Claim C5: the date-range matcher returns false when a present start
bound exceeds the timestamp (JS `<`), false when a present end bound is
below it (JS `>`), true when neither bound is present, and true otherwise;
both bounds are inclusive of their own instant. -/
theorem isDateInRange_spec (d : JSDate) :
    (isDateInRange d none none = true) ∧
    (∀ sv e, jsLt d sv = true → isDateInRange d (some sv) e = false) ∧
    (∀ ev s, jsGt d ev = true → isDateInRange d s (some ev) = false) ∧
    (∀ s e, (match s with | some sv => jsLt d sv | none => false) = false →
      (match e with | some ev => jsGt d ev | none => false) = false →
      isDateInRange d s e = true) ∧
    (∀ t : Int, isDateInRange (some t) (some (some t)) (some (some t)) = true) := by
  refine ⟨by simp [isDateInRange], ?_, ?_, ?_, ?_⟩
  · intro sv e hlt
    simp [isDateInRange, hlt]
  · intro ev s hgt
    unfold isDateInRange
    cases s with
    | none => simp [hgt]
    | some sv => by_cases h : jsLt d sv <;> simp [h, hgt]
  · intro s e hs he
    simp [isDateInRange, hs, he]
  · intro t
    simp [isDateInRange, jsLt, jsGt]

/-- Witness for C5 at concrete instants: 5 is before a start bound of 7;
9 is past an end bound of 8; 7 lies within [5, 8]; 7 lies within [7, 7]. -/
theorem isDateInRange_spec_witness :
    isDateInRange (some 5) (some (some 7)) none = false ∧
    isDateInRange (some 9) (some (some 7)) (some (some 8)) = false ∧
    isDateInRange (some 7) (some (some 5)) (some (some 8)) = true ∧
    isDateInRange (some 7) (some (some 7)) (some (some 7)) = true :=
  ⟨(isDateInRange_spec (some 5)).2.1 (some 7) none (by decide),
   (isDateInRange_spec (some 9)).2.2.1 (some 8) (some (some 7)) (by decide),
   (isDateInRange_spec (some 7)).2.2.2.1 (some (some 5)) (some (some 8))
     (by decide) (by decide),
   (isDateInRange_spec (some 7)).2.2.2.2 7⟩

/-- Claim C10: the date-range matcher is total by construction in this
embedding (it is a Lean function, mirroring that the JS source only
compares and never throws), and an unparseable timestamp (`new Date`
giving NaN, here `none`) defeats both bound comparisons, so the matcher
returns true for every combination of bounds — such a record always passes
the date-range filter block of `filteredShipments`, even with both bounds
present. -/
theorem isDateInRange_invalid_date (s e : Option JSDate) (st : FilterState) (sh : Shipment)
    (hdate : sh.date = none) :
    isDateInRange none s e = true ∧ dateOk st sh = true := by
  constructor
  · unfold isDateInRange
    cases s <;> cases e <;> simp [jsLt, jsGt]
  · unfold dateOk
    by_cases h : st.startDate.isSome || st.endDate.isSome
    · rw [if_pos h, hdate]
      unfold isDateInRange
      cases st.startDate <;> cases st.endDate <;> simp [jsLt, jsGt]
    · rw [if_neg h]

/-- Witness for C10: a record with an unparseable date passes the filter
even with both bounds present. -/
theorem isDateInRange_invalid_date_witness :
    isDateInRange none (some (some 3)) (some (some 9)) = true ∧
    dateOk { emptyFilterState with startDate := some (some 3), endDate := some (some 9) }
      invalidDateShipment = true :=
  isDateInRange_invalid_date (some (some 3)) (some (some 9))
    { emptyFilterState with startDate := some (some 3), endDate := some (some 9) }
    invalidDateShipment rfl

theorem handleSubmit_valid (form : ShipmentCreate) (h9 : form.product_code.length = 9)
    (hd : form.product_code.all Char.isDigit = true) :
    handleSubmit form = SubmitResult.submitted form := by
  have hne : form.product_code.isEmpty = false := by
    cases h : form.product_code with
    | nil => rw [h] at h9; simp at h9
    | cons a t => simp [List.isEmpty]
  simp [handleSubmit, digitsTest, h9, hne, hd]

/-- Claim C4 is false as stated: the submit handler performs no
dealer-code range check (and no shipped check) — the spec's own concrete
scenario `validate({productCode:"123456789", dealerCode:0, shipped:1})`
is submitted to the create mutation, not rejected with
`DealerCodeOutOfRange`; likewise `shipped = 0` passes. -/
theorem dealer_validation_counterexample :
    handleSubmit dealerZeroForm = SubmitResult.submitted dealerZeroForm ∧
    handleSubmit shippedZeroForm = SubmitResult.submitted shippedZeroForm := by
  decide

/-- Claim C4 (amended): the submit handler validates only the product
code; dealer-code and shipped-quantity ranges are enforced solely as HTML
input attributes (`min`/`max`), not in `handleSubmit` — every form whose
product code is a 9-digit string is handed to the create mutation
unchanged, whatever `dealer_code` and `shipped` hold, and no
`DealerCodeOutOfRange` / `InvalidShippedQuantity` rejection exists. -/
theorem submit_no_range_checks (form : ShipmentCreate) (d sh : Int)
    (h9 : form.product_code.length = 9)
    (hd : form.product_code.all Char.isDigit = true) :
    handleSubmit { form with dealer_code := d, shipped := sh } =
      SubmitResult.submitted { form with dealer_code := d, shipped := sh } :=
  handleSubmit_valid { form with dealer_code := d, shipped := sh } h9 hd

/-- Witness for the amended C4: a negative dealer code and zero shipped
quantity are still submitted when the product code is valid. -/
theorem submit_no_range_checks_witness :
    handleSubmit { negDealerForm with dealer_code := -5, shipped := 0 } =
      SubmitResult.submitted { negDealerForm with dealer_code := -5, shipped := 0 } :=
  submit_no_range_checks negDealerForm (-5) 0 (by decide) (by decide)

/-- Claim C6: a product code that is not exactly 9 characters or contains
a non-digit is rejected with the user-visible message
`"Product code must be exactly 9 digits"` and the create mutation is never
invoked (the handler returns before `createMutation.mutate`); a valid
9-digit product code passes the check and the request is issued with the
form payload. -/
theorem product_code_validation (form : ShipmentCreate) :
    (form.product_code.length ≠ 9 ∨ form.product_code.all Char.isDigit = false →
      handleSubmit form = SubmitResult.rejected "Product code must be exactly 9 digits".data) ∧
    (form.product_code.length = 9 → form.product_code.all Char.isDigit = true →
      handleSubmit form = SubmitResult.submitted form) := by
  constructor
  · intro h
    unfold handleSubmit
    rcases h with h | h
    · simp [h]
    · by_cases h9 : form.product_code.length = 9
      · simp [h9, digitsTest, h]
      · simp [h9]
  · intro h9 hd
    exact handleSubmit_valid form h9 hd

/-- Witness for C6: the spec's 5-digit scenario `"12345"` is rejected with
the message and never submitted; a 9-letter non-digit string is rejected;
a valid 9-digit code is submitted. -/
theorem product_code_validation_witness :
    handleSubmit shortCodeForm =
      SubmitResult.rejected "Product code must be exactly 9 digits".data ∧
    handleSubmit letterCodeForm =
      SubmitResult.rejected "Product code must be exactly 9 digits".data ∧
    handleSubmit goodForm = SubmitResult.submitted goodForm :=
  ⟨(product_code_validation shortCodeForm).1 (by decide),
   (product_code_validation letterCodeForm).1 (by decide),
   (product_code_validation goodForm).2 (by decide) (by decide)⟩

/-- Claim C7: exporting zero (filtered) records produces no file and
signals the `"No data to export"` toast instead (the handler returns
before `exportToCSV`); every non-empty input proceeds to produce the file
rows. -/
theorem export_empty_guard (fmtDate : JSDate → Str) (records : List Shipment) :
    handleExportCSV fmtDate [] = ExportResult.nothingToExport ∧
    (records ≠ [] →
      handleExportCSV fmtDate records =
        ExportResult.fileProduced (records.map (exportRow fmtDate))) := by
  constructor
  · simp [handleExportCSV]
  · intro h
    have hlen : records.length ≠ 0 := by simpa [List.length_eq_zero] using h
    simp [handleExportCSV, hlen]

/-- Witness for C7: the empty collection yields the no-data signal, a
singleton collection yields a file with its one row. -/
theorem export_empty_guard_witness :
    handleExportCSV fmtDummy [] = ExportResult.nothingToExport ∧
    handleExportCSV fmtDummy [sampleShipment] =
      ExportResult.fileProduced [exportRow fmtDummy sampleShipment] :=
  ⟨(export_empty_guard fmtDummy []).1,
   (export_empty_guard fmtDummy [sampleShipment]).2 (by simp)⟩

/-- Claim C8: for every non-empty record list the export projection
produces exactly one row per input record, in input order (the rows are
the element-wise image of the records), each row having the nine cells
Date (the `yyyy-MM-dd HH:mm` formatter applied to the instant), Dealer,
Warehouse, Product Code, Vehicle, Shipped, Returned, Damage Rate, Loss
Value in that fixed order; an absent `returned`, `damage_rate` or
`loss_value` renders as the empty-string cell `.str []` — never a literal
`"null"`/`"undefined"` marker — a present `returned`/`loss_value` renders
as the number, and a present non-zero `damage_rate` renders as the
two-decimal percentage with trailing `%`. -/
theorem export_projection (fmtDate : JSDate → Str) (records : List Shipment)
    (h : records ≠ []) :
    handleExportCSV fmtDate records =
      ExportResult.fileProduced (records.map (exportRow fmtDate)) ∧
    (records.map (exportRow fmtDate)).length = records.length ∧
    (∀ i : Nat, (records.map (exportRow fmtDate))[i]? = (records[i]?).map (exportRow fmtDate)) ∧
    (∀ s : Shipment, (exportRow fmtDate s).length = 9) ∧
    (∀ s : Shipment,
      (exportRow fmtDate s)[0]? = some (.str (fmtDate s.date)) ∧
      (exportRow fmtDate s)[1]? = some (.num s.dealer_code) ∧
      (exportRow fmtDate s)[2]? = some (.str s.warehouse) ∧
      (exportRow fmtDate s)[3]? = some (.str s.product_code) ∧
      (exportRow fmtDate s)[4]? = some (.str s.vehicle) ∧
      (exportRow fmtDate s)[5]? = some (.num s.shipped)) ∧
    (∀ s : Shipment, s.returned = none → (exportRow fmtDate s)[6]? = some (.str [])) ∧
    (∀ (s : Shipment) (n : Nat), s.returned = some n →
      (exportRow fmtDate s)[6]? = some (.num n)) ∧
    (∀ s : Shipment, s.damage_rate = none → (exportRow fmtDate s)[7]? = some (.str [])) ∧
    (∀ (s : Shipment) (r : Rat), s.damage_rate = some r → r ≠ 0 →
      (exportRow fmtDate s)[7]? = some (.str (toFixed2 (r * 100) ++ ['%']))) ∧
    (∀ s : Shipment, s.loss_value = none → (exportRow fmtDate s)[8]? = some (.str [])) ∧
    (∀ (s : Shipment) (v : Rat), s.loss_value = some v →
      (exportRow fmtDate s)[8]? = some (.num v)) := by
  refine ⟨?_, ?_, ?_, ?_, ?_, ?_, ?_, ?_, ?_, ?_, ?_⟩
  · have hlen : records.length ≠ 0 := by simpa [List.length_eq_zero] using h
    simp [handleExportCSV, hlen]
  · simp
  · intro i
    simp [List.getElem?_map]
  · intro s
    simp [exportRow]
  · intro s
    simp [exportRow]
  · intro s hr
    simp [exportRow, hr]
  · intro s n hr
    simp [exportRow, hr]
  · intro s hr
    simp [exportRow, hr]
  · intro s r hr hr0
    simp [exportRow, hr, hr0]
  · intro s hr
    simp [exportRow, hr]
  · intro s v hr
    simp [exportRow, hr]

/-- Witness for C8 at the singleton list holding `sampleShipment`
(damage rate 1/10, rendered as `"10.00%"`). -/
theorem export_projection_witness :
    handleExportCSV fmtDummy [sampleShipment] =
      ExportResult.fileProduced ([sampleShipment].map (exportRow fmtDummy)) ∧
    (exportRow fmtDummy sampleShipment)[7]? =
      some (Cell.str (toFixed2 ((1 / 10 : Rat) * 100) ++ ['%'])) :=
  ⟨(export_projection fmtDummy [sampleShipment] (by simp)).1,
   (export_projection fmtDummy [sampleShipment] (by simp)).2.2.2.2.2.2.2.2.1
     sampleShipment (1 / 10) rfl (by norm_num)⟩

/-- Claim C9: the Damage Rate cell branches on JS truthiness
(`s.damage_rate ? ... : ""`), so a present damage rate equal to 0 renders
as the empty string — indistinguishable from an absent rate — and is never
exported as `"0.00%"`. -/
theorem damage_rate_zero_blank (fmtDate : JSDate → Str) (s : Shipment)
    (h : s.damage_rate = some 0) :
    (exportRow fmtDate s)[7]? = some (Cell.str []) ∧
    (exportRow fmtDate s)[7]? = (exportRow fmtDate { s with damage_rate := none })[7]? ∧
    (exportRow fmtDate s)[7]? ≠ some (Cell.str ("0.00%".data)) := by
  refine ⟨?_, ?_, ?_⟩ <;> simp [exportRow, h]

/-- Witness for C9 at a concrete record with `damage_rate = some 0`. -/
theorem damage_rate_zero_blank_witness :
    (exportRow fmtDummy zeroRateShipment)[7]? = some (Cell.str []) ∧
    (exportRow fmtDummy zeroRateShipment)[7]? =
      (exportRow fmtDummy { zeroRateShipment with damage_rate := none })[7]? ∧
    (exportRow fmtDummy zeroRateShipment)[7]? ≠ some (Cell.str ("0.00%".data)) :=
  damage_rate_zero_blank fmtDummy zeroRateShipment rfl

/-- Claim C1: the filter operation returns a sublist of the input (order
preserved, no record fabricated); a record is retained exactly when it is
in the input and satisfies all four predicates (text search, date range,
warehouse, vehicle); each unset predicate passes every record; and the
all-empty filter state is the identity. -/
theorem filter_spec (st : FilterState) (l : List Shipment) :
    (filteredShipments st l).Sublist l ∧
    (∀ s, s ∈ filteredShipments st l ↔
      s ∈ l ∧ searchOk st s = true ∧ dateOk st s = true ∧
        warehouseOk st s = true ∧ vehicleOk st s = true) ∧
    (st.searchQuery = [] → ∀ s, searchOk st s = true) ∧
    (st.startDate = none → st.endDate = none → ∀ s, dateOk st s = true) ∧
    (st.warehouseFilter = "all".data → ∀ s, warehouseOk st s = true) ∧
    (st.vehicleFilter = "all".data → ∀ s, vehicleOk st s = true) ∧
    filteredShipments emptyFilterState l = l := by
  refine ⟨List.filter_sublist _, ?_, ?_, ?_, ?_, ?_, ?_⟩
  · intro s
    rw [filteredShipments, List.mem_filter, matchesFilter]
    simp only [Bool.and_eq_true]
    tauto
  · intro hq s
    simp [searchOk, hq]
  · intro h1 h2 s
    simp [dateOk, h1, h2]
  · intro hw s
    simp [warehouseOk, hw]
  · intro hv s
    simp [vehicleOk, hv]
  · refine List.filter_eq_self.mpr ?_
    intro s _
    simp [matchesFilter, searchOk, dateOk, warehouseOk, vehicleOk, emptyFilterState]

/-- Witness for C1: the empty filter state is the identity on a singleton
collection, and its unset text predicate passes the record. -/
theorem filter_spec_witness :
    filteredShipments emptyFilterState [sampleShipment] = [sampleShipment] ∧
    searchOk emptyFilterState sampleShipment = true :=
  ⟨(filter_spec emptyFilterState [sampleShipment]).2.2.2.2.2.2,
   (filter_spec emptyFilterState [sampleShipment]).2.2.1 rfl sampleShipment⟩

end PaintDamage
